import Mathlib

/-!
Verification of the dehumidifier-controller repository
(`co2_trigger.py`, `decision.py`, `main.py`) against its design
specification.

The Python code is shallowly embedded below.  Python floats are modelled
as exact real numbers (ℝ) where the code does real arithmetic
(`statistics.mean`, `statistics.stdev`, `int(...)` truncation), and as
rationals (ℚ) where only order comparisons occur (device watt draws).
Python exceptions are modelled with `Except` / explicit `raised` flags:
an `error` value corresponds to an exception that escapes the translated
function (the call sites in `main.py` install no handler for them, so
such an exception terminates the process).
-/

namespace Dehumidifier

/-! ### `decision.py` — the `Decision` dataclass

The dataclass declares `threshold`/`measurement` as `int`, but the code
stores Python floats in `measurement` (`Controller.decide_device` writes
the raw watt draw there), so the numeric field type is a parameter. -/

structure Decision (α : Type) where
  name : String
  criteria : String
  units : String
  threshold : α
  measurement : α
  decision : Bool
deriving DecidableEq, Repr

/-! ### `main.py` — device command state machine (`Controller.update_device`) -/

inductive DeviceState where
  | on
  | off
  | unknown
deriving DecidableEq, Repr

inductive Command where
  | dehumidifier_on
  | dehumidifier_off
deriving DecidableEq, Repr

/-- `next_state = DeviceState.ON if on else DeviceState.OFF` -/
def impliedState (onFlag : Bool) : DeviceState :=
  if onFlag then .on else .off

/-- `event = "dehumidifier_on" if on else "dehumidifier_off"` -/
def commandFor (onFlag : Bool) : Command :=
  if onFlag then .dehumidifier_on else .dehumidifier_off

/-- The `fire_update` flag computed by the if/elif chain in
`Controller.update_device`. -/
def fire_update (s : DeviceState) (onFlag : Bool) : Bool :=
  if s = .on ∧ onFlag = false then true
  else if s = .off ∧ onFlag = true then true
  else if s = .unknown then true
  else false

/-- Result of one `Controller.update_device` call: the `device_state`
attribute after the call, the command that was successfully delivered to
the webhook (if any), and whether an exception escaped the call
(`requests.get` is not wrapped in any try/except, in `update_device`,
`run` or `__main__`). -/
structure UpdateOutcome where
  device_state : DeviceState
  sent : Option Command
  raised : Bool
deriving DecidableEq, Repr

/-- `Controller.update_device(on)`.  `emitOk` models whether the
`requests.get(webhook_url)` call returns (True) or raises a transport
exception (False).  The assignment `self.device_state = next_state` is
textually after the `requests.get` call, so it is not reached when the
call raises. -/
def update_device (s : DeviceState) (onFlag : Bool) (emitOk : Bool) : UpdateOutcome :=
  if fire_update s onFlag then
    if emitOk then
      { device_state := impliedState onFlag, sent := some (commandFor onFlag), raised := false }
    else
      { device_state := s, sent := none, raised := true }
  else
    { device_state := s, sent := none, raised := false }

/-- A run of `update_device` cycles in which every webhook call succeeds:
threads the stored state through and collects the emitted commands. -/
def runVerdicts (s : DeviceState) : List Bool → DeviceState × List Command
  | [] => (s, [])
  | b :: rest =>
    let o := update_device s b true
    let r := runVerdicts o.device_state rest
    (r.1, o.sent.toList ++ r.2)

/-- One loop iteration's call to `update_device` as seen from
`Controller.run`: `run` installs no exception handler, so a raise inside
`update_device` propagates out of the loop (and out of `__main__`). -/
inductive PyErr where
  | nameError
  | attributeError
  | jsonDecodeError
  | connectionError
deriving DecidableEq, Repr

def runCycleEmit (s : DeviceState) (onFlag : Bool) (emitOk : Bool) :
    Except PyErr UpdateOutcome :=
  let o := update_device s onFlag emitOk
  if o.raised then .error .connectionError else .ok o

/-! ### State machine lemmas -/

lemma update_device_stable (b : Bool) :
    update_device (impliedState b) b true =
      { device_state := impliedState b, sent := none, raised := false } := by
  cases b <;> rfl

lemma runVerdicts_replicate (b : Bool) (n : Nat) :
    runVerdicts (impliedState b) (List.replicate n b) = (impliedState b, []) := by
  induction n with
  | zero => rfl
  | succ n ih =>
    rw [List.replicate_succ]
    simp only [runVerdicts, update_device_stable, ih]
    rfl

/-- Claim C1 (confirmed): starting from `DeviceState.UNKNOWN`, a command
is emitted by `update_device` iff the verdict's implied state differs
from the stored state or the stored state is UNKNOWN; exactly one command
is emitted on the first cycle and on any following run of cycles with an
unchanged verdict; and the verdict sequence `[true, true, false, false,
true]` yields exactly the command sequence `[on, off, on]`. -/
theorem C1_state_machine (s : DeviceState) (b : Bool) (n : Nat) :
    ((update_device s b true).sent.isSome
        = (decide (impliedState b ≠ s) || decide (s = DeviceState.unknown)))
    ∧ (runVerdicts DeviceState.unknown (b :: List.replicate n b)).2 = [commandFor b]
    ∧ (runVerdicts DeviceState.unknown [true, true, false, false, true]).2
        = [Command.dehumidifier_on, Command.dehumidifier_off, Command.dehumidifier_on] := by
  refine ⟨?_, ?_, by decide⟩
  · cases s <;> cases b <;> decide
  · have hfirst : update_device DeviceState.unknown b true =
        { device_state := impliedState b, sent := some (commandFor b), raised := false } := by
      cases b <;> rfl
    simp only [runVerdicts, hfirst, runVerdicts_replicate]
    rfl

/-- Claim C2 (code_bug): with the stored state OFF and the verdict true,
a webhook call that raises leaves the stored state unchanged (the
assignment sits after `requests.get`), but the exception escapes
`update_device` and `run` uncaught, killing the process — there is no
"next cycle" that retries, contrary to the claim.  Had the process
survived, the same call with the same verdict would indeed fire the same
command, as the third conjunct shows. -/
theorem C2_emission_failure :
    update_device DeviceState.off true false =
      { device_state := DeviceState.off, sent := none, raised := true }
    ∧ runCycleEmit DeviceState.off true false = .error .connectionError
    ∧ update_device DeviceState.off true true =
      { device_state := DeviceState.on, sent := some Command.dehumidifier_on, raised := false } := by
  refine ⟨rfl, rfl, rfl⟩

/-! ### `co2_trigger.py` — the reading window

`self.data = deque([], DEQUE_SIZE)` with `DEQUE_SIZE = 36 * 2`.
A `collections.deque` with `maxlen = C` discards elements from the
opposite (oldest) end as new ones are appended, and `deque(iterable, C)`
keeps the last `C` elements of the iterable. -/

def UPDATE_INTERVAL : ℝ := 30 * 60

def DEQUE_SIZE : Nat := 36 * 2

/-- `deque.append` on a deque with `maxlen = C`: adds on the right,
discarding from the left whatever exceeds the capacity. -/
def dequeAppend {α : Type} (C : Nat) (w : List α) (x : α) : List α :=
  let w' := w ++ [x]
  if C < w'.length then w'.drop (w'.length - C) else w'

/-- `deque(xs, C)`: keeps the last `C` elements of `xs`. -/
def dequeFrom {α : Type} (C : Nat) (xs : List α) : List α :=
  xs.drop (xs.length - C)

lemma dequeAppend_length_le_of_le {α : Type} (C : Nat) (w : List α) (x : α)
    (hw : w.length ≤ C) : (dequeAppend C w x).length ≤ C := by
  unfold dequeAppend
  by_cases h : C < (w ++ [x]).length
  · simp only [if_pos h, List.length_drop]
    omega
  · simp only [if_neg h]
    simp only [List.length_append, List.length_singleton] at h
    simp only [List.length_append, List.length_singleton]
    omega

lemma foldl_dequeAppend_length_le {α : Type} (C : Nat) (xs : List α) :
    ∀ w : List α, w.length ≤ C → (xs.foldl (dequeAppend C) w).length ≤ C := by
  induction xs with
  | nil => intro w hw; simpa using hw
  | cons x xs ih =>
    intro w hw
    simpa [List.foldl_cons] using ih _ (dequeAppend_length_le_of_le C w x hw)

lemma dequeAppend_no_evict {α : Type} (C : Nat) (w : List α) (x : α)
    (h : w.length + 1 ≤ C) : dequeAppend C w x = w ++ [x] := by
  unfold dequeAppend
  have hnc : ¬ C < (w ++ [x]).length := by
    simp only [List.length_append, List.length_singleton]; omega
  simp only [if_neg hnc]

lemma foldl_dequeAppend_range' (C : Nat) :
    ∀ k, k ≤ C → (List.range' 1 k).foldl (dequeAppend C) ([] : List ℕ) = List.range' 1 k := by
  intro k
  induction k with
  | zero => intro _; rfl
  | succ k ih =>
    intro hk
    rw [show List.range' 1 (k + 1) = List.range' 1 k ++ [1 + 1 * k] from List.range'_concat 1 k,
      List.foldl_append, ih (by omega)]
    simp only [List.foldl_cons, List.foldl_nil]
    exact dequeAppend_no_evict C _ _ (by simpa [List.length_range'] using hk)

/-- Claim C6 (confirmed): `append` is a total function (never fails);
after any sequence of appends into the initially empty capacity-`C`
window the length never exceeds `C`; and eviction is oldest-first FIFO:
appending `1..C+1` into an empty capacity-`C` window leaves exactly
`2..C+1`. -/
theorem C6_window_fifo (C : Nat) (xs : List ℕ) :
    (xs.foldl (dequeAppend C) ([] : List ℕ)).length ≤ C
    ∧ (List.range' 1 (C + 1)).foldl (dequeAppend C) ([] : List ℕ) = List.range' 2 C := by
  refine ⟨foldl_dequeAppend_length_le C xs [] (by simp), ?_⟩
  rw [show List.range' 1 (C + 1) = List.range' 1 C ++ [1 + 1 * C] from List.range'_concat 1 C,
    List.foldl_append, foldl_dequeAppend_range' C C le_rfl]
  simp only [List.foldl_cons, List.foldl_nil]
  unfold dequeAppend
  have hlen : (List.range' 1 C ++ [1 + 1 * C]).length = C + 1 := by
    simp [List.length_range']
  rw [if_pos (by omega)]
  rw [hlen]
  have : List.range' 1 C ++ [1 + 1 * C] = List.range' 1 (C + 1) := (List.range'_concat 1 C).symm
  rw [this, List.range'_succ]
  simp

/-! ### `co2_trigger.py` — persistence (`CO2Trigger.load_data`)

`load_data` opens the snapshot file and runs
`self.data = deque(json.load(in_file), DEQUE_SIZE)`.  Neither `load_data`
nor the `__main__` block wraps this in try/except, so an unparseable file
raises `json.JSONDecodeError` straight out of the process. -/

inductive SnapshotFile where
  | malformed
  | wellFormed (xs : List ℝ)

/-- `CO2Trigger.load_data`: the window contents it installs, or the
exception that escapes. -/
def load_data (f : SnapshotFile) : Except PyErr (List ℝ) :=
  match f with
  | .malformed => .error .jsonDecodeError
  | .wellFormed xs => .ok (dequeFrom DEQUE_SIZE xs)

/-- Claim C7 (code_bug): loading a well-formed snapshot does install its
values truncated to the most recent `DEQUE_SIZE`, but a malformed
snapshot raises `json.JSONDecodeError`, which no handler in `load_data`
or `__main__` catches — the process dies at startup instead of starting
with an empty window as the claim states. -/
theorem C7_load_snapshot (xs : List ℝ) :
    load_data SnapshotFile.malformed = .error .jsonDecodeError
    ∧ load_data (SnapshotFile.wellFormed xs) = .ok (xs.drop (xs.length - DEQUE_SIZE)) := by
  exact ⟨rfl, rfl⟩

/-! ### `co2_trigger.py` — statistics and `CO2Trigger.decide`

`statistics.mean` and `statistics.stdev` (unbiased sample standard
deviation, n−1 denominator) over the window contents, modelled over ℝ.
Python's `int(...)` truncates toward zero. -/

noncomputable def mean (l : List ℝ) : ℝ := l.sum / l.length

noncomputable def stdev (l : List ℝ) : ℝ :=
  Real.sqrt ((l.map (fun x => (x - mean l) ^ 2)).sum / ((l.length : ℝ) - 1))

/-- Python `int(x)`: truncation toward zero. -/
noncomputable def pyInt (x : ℝ) : ℤ :=
  if 0 ≤ x then ⌊x⌋ else ⌈x⌉

/-- The Python value returned by `CO2Trigger.decide`: the bare boolean
`False` when the window holds fewer than 2 samples, otherwise a
`Decision` record. -/
inductive CO2Out where
  | pyFalse
  | decision (d : Decision ℤ)

/-- `CO2Trigger.decide`: `last_co2 = int(self.data[-1])`,
`threshold = int(mean(self.data) + stdev(self.data))`,
`is_high = last_co2 >= threshold`, `decision = not is_high`. -/
noncomputable def co2Decide (data : List ℝ) : CO2Out :=
  if data.length < 2 then .pyFalse
  else
    let last_co2 : ℤ := pyInt data.getLast!
    let threshold : ℤ := pyInt (mean data + stdev data)
    let is_high : Bool := decide (threshold ≤ last_co2)
    .decision
      { name := "Carbon Cost"
        criteria := "Carbon cost less than x?? + ??"
        units := "gCO2eq/kWh"
        threshold := threshold
        measurement := last_co2
        decision := !is_high }

/-- Spec-side evaluation (design §4.2, for comparison with `co2Decide`):
the comparison and the reported values are carried out at full precision
on the raw samples, with no truncation to integers. -/
noncomputable def co2DecideSpec (data : List ℝ) : Option (Decision ℝ) :=
  if data.length < 2 then none
  else
    some
      { name := "Carbon Cost"
        criteria := "Carbon cost less than x?? + ??"
        units := "gCO2eq/kWh"
        threshold := mean data + stdev data
        measurement := data.getLast!
        decision := decide (data.getLast! < mean data + stdev data) }

def co2OutDecision : CO2Out → Option Bool
  | .pyFalse => none
  | .decision d => some d.decision

/-! ### `co2_trigger.py` — `CO2Trigger.update_data` and mutable state

The mutable fields of a `CO2Trigger` that `update_data` and `decide`
can touch: the window, the `next_update` monotonic deadline, and the
persisted snapshot file contents. -/

structure CO2State where
  data : List ℝ
  next_update : ℝ
  file : List ℝ

/-- What the carbon-intensity fetch produced this cycle. -/
inductive CO2Fetch where
  | malformedJSON
  | missingField
  | value (x : ℝ)

/-- `CO2Trigger.update_data`.  If the monotonic clock is before
`next_update` the fetch is skipped.  A response body that is not valid
JSON makes `api_response.json()` raise; evaluating the handler clause
`except JSONDecodeError` then raises `NameError` (the name
`JSONDecodeError` is never imported in `co2_trigger.py`), which escapes
the function.  A missing `data.carbonIntensity` field is logged and the
update skipped with no mutation.  A successful fetch appends the sample,
advances `next_update`, and rewrites the snapshot file. -/
noncomputable def update_data (s : CO2State) (now : ℝ) (fetch : CO2Fetch) :
    Except PyErr CO2State :=
  if now < s.next_update then .ok s
  else
    match fetch with
    | .malformedJSON => .error .nameError
    | .missingField => .ok s
    | .value x =>
      let data' := dequeAppend DEQUE_SIZE s.data x
      .ok { data := data', next_update := now + UPDATE_INTERVAL, file := data' }

/-- `CO2Trigger.decide` as a state transformer: the method body contains
no assignment to `self.data`, `self.next_update` or the snapshot file —
it only reads `self.data` and logs. -/
noncomputable def decideS (s : CO2State) : CO2State × CO2Out :=
  (s, co2Decide s.data)

/-! ### `main.py` — combining the two verdicts

`Controller.run` evaluates
`decisions[0].decision and decisions[1].decision`.  When `decide`
returned the bare `False` (still-initializing window), the attribute
access `False.decision` raises `AttributeError`, which no handler in
`run` or `__main__` catches. -/

def combinedVerdict (c : CO2Out) (dev : Decision ℚ) : Except PyErr Bool :=
  match c with
  | .pyFalse => .error .attributeError
  | .decision d => .ok (d.decision && dev.decision)

/-! ### `main.py` — `Controller.decide_device`

Watt draws are modelled as rationals (only order comparisons occur).
The method builds a default passing `Decision`, returns it on a caught
transient timeout, then scans the report for the named device.  The
post-loop log line references the loop variable `device_name`, which is
unbound when the report listed no devices at all — a `NameError`. -/

def DEVICE_DRAW_THRESHOLD : ℚ := 50

inductive SenseFetch where
  | timeout
  | report (devices : List (String × ℚ))

def defaultDeviceDecision (sense_device : String) : Decision ℚ :=
  { name := sense_device
    criteria := "Projector should be off"
    units := "W"
    threshold := 50
    measurement := 0
    decision := true }

/-- The `for device in realtime_data["devices"]` scan: the first entry
whose name matches `sense_device` wins. -/
def findDevice (sense_device : String) : List (String × ℚ) → Option ℚ
  | [] => none
  | (n, w) :: rest => if n = sense_device then some w else findDevice sense_device rest

/-- `Controller.decide_device`: `device_is_on = device_draw >
DEVICE_DRAW_THRESHOLD` (strict), `decision.measurement = device_draw`,
`decision.decision = not device_is_on`. -/
def decide_device (sense_device : String) (fetch : SenseFetch) :
    Except PyErr (Decision ℚ) :=
  match fetch with
  | .timeout => .ok (defaultDeviceDecision sense_device)
  | .report devices =>
    match findDevice sense_device devices with
    | some draw =>
      .ok { defaultDeviceDecision sense_device with
            measurement := draw
            decision := !(decide (DEVICE_DRAW_THRESHOLD < draw)) }
    | none =>
      if devices.isEmpty then .error .nameError
      else .ok (defaultDeviceDecision sense_device)

/-! ### Claims about initialization, error recovery and frame effects -/

/-- Claim C3 (code_bug): with fewer than 2 samples `decide` does return
the distinguished non-`Decision` value (the bare Python `False`), but
`Controller.run` then evaluates `False.decision`, raising an uncaught
`AttributeError` — the loop crashes instead of taking the safe
appliance-off branch. -/
theorem C3_initializing_crash :
    co2Decide [(420 : ℝ)] = CO2Out.pyFalse
    ∧ combinedVerdict (co2Decide [(420 : ℝ)]) (defaultDeviceDecision "Projector")
        = .error .attributeError := by
  have h : co2Decide [(420 : ℝ)] = CO2Out.pyFalse := by
    unfold co2Decide
    norm_num
  exact ⟨h, by rw [h]; rfl⟩

/-- Claim C8 counterexample: when the carbon verdict is the
still-initializing `False`, the combined-verdict expression raises
`AttributeError`; it is not evaluated to the not-pass verdict `false`. -/
theorem C8_counterexample :
    combinedVerdict CO2Out.pyFalse (defaultDeviceDecision "Device") = .error .attributeError
    ∧ (Except.error PyErr.attributeError : Except PyErr Bool) ≠ .ok false := by
  exact ⟨rfl, by simp⟩

/-- Claim C8 (corrected, amended part): whenever the carbon evaluation
produced an actual `Decision`, the combined verdict fed to the state
machine is exactly the conjunction of the two sub-verdicts. -/
theorem C8_conjunction (d : Decision ℤ) (dev : Decision ℚ) :
    combinedVerdict (CO2Out.decision d) dev = .ok (d.decision && dev.decision) := by
  rfl

/-- Claim C9 (code_bug): a missing carbon-intensity field is indeed
recovered locally with no state mutation, but a malformed (non-JSON)
response raises `NameError` out of `update_data` — the handler clause
names `JSONDecodeError`, which is never imported — and no caller catches
it, so the failure is fatal, contrary to the claim. -/
theorem C9_malformed_fatal :
    update_data ⟨[], 0, []⟩ 0 CO2Fetch.malformedJSON = .error .nameError
    ∧ update_data ⟨[], 0, []⟩ 0 CO2Fetch.missingField = .ok ⟨[], 0, []⟩ := by
  constructor <;> · unfold update_data; norm_num

/-- Claim C10 (confirmed): `decide` is observation-only — it returns the
state unchanged and its verdict depends only on the window — while a
skipped fetch (clock before `next_update`) and a missing-field fetch
leave the whole state unchanged; appending a sample, advancing
`next_update` and rewriting the snapshot happen only in `update_data`'s
success branch. -/
theorem C10_decide_pure (s : CO2State) (f : CO2Fetch) (x : ℝ) (t1 t2 : ℝ)
    (h1 : t1 < s.next_update) (h2 : s.next_update ≤ t2) :
    (decideS s).1 = s
    ∧ (decideS s).2 = co2Decide s.data
    ∧ update_data s t1 f = .ok s
    ∧ update_data s t2 CO2Fetch.missingField = .ok s
    ∧ update_data s t2 (CO2Fetch.value x)
        = .ok { data := dequeAppend DEQUE_SIZE s.data x
                next_update := t2 + UPDATE_INTERVAL
                file := dequeAppend DEQUE_SIZE s.data x } := by
  have hnot : ¬ t2 < s.next_update := not_lt.mpr h2
  refine ⟨rfl, rfl, ?_, ?_, ?_⟩
  · unfold update_data
    rw [if_pos h1]
  · unfold update_data
    rw [if_neg hnot]
  · unfold update_data
    rw [if_neg hnot]

/-- Witness for C10 at a concrete state and concrete clock readings. -/
theorem C10_decide_pure_witness :
    ((0 : ℝ) < 5 ∧ (5 : ℝ) ≤ 10)
    ∧ ((decideS ⟨[1, 2], 5, [1, 2]⟩).1 = ⟨[1, 2], 5, [1, 2]⟩
      ∧ (decideS ⟨[1, 2], 5, [1, 2]⟩).2 = co2Decide [1, 2]
      ∧ update_data ⟨[1, 2], 5, [1, 2]⟩ 0 CO2Fetch.malformedJSON = .ok ⟨[1, 2], 5, [1, 2]⟩
      ∧ update_data ⟨[1, 2], 5, [1, 2]⟩ 10 CO2Fetch.missingField = .ok ⟨[1, 2], 5, [1, 2]⟩
      ∧ update_data ⟨[1, 2], 5, [1, 2]⟩ 10 (CO2Fetch.value 7)
          = .ok { data := dequeAppend DEQUE_SIZE [1, 2] 7
                  next_update := 10 + UPDATE_INTERVAL
                  file := dequeAppend DEQUE_SIZE [1, 2] 7 }) :=
  ⟨⟨by norm_num, by norm_num⟩,
    C10_decide_pure ⟨[1, 2], 5, [1, 2]⟩ CO2Fetch.malformedJSON 7 0 10
      (by norm_num) (by norm_num)⟩

/-- Claim C5 counterexample: a device reported at exactly the 50 W
threshold — so with draw ≥ 50 — still yields `decision = true`, because
the code's comparison `device_draw > DEVICE_DRAW_THRESHOLD` is strict. -/
theorem C5_counterexample :
    decide_device "projector" (SenseFetch.report [("projector", 50)])
      = .ok { defaultDeviceDecision "projector" with measurement := 50, decision := true }
    ∧ DEVICE_DRAW_THRESHOLD ≤ (50 : ℚ) := by
  exact ⟨rfl, le_refl _⟩

/-- Claim C5 (corrected, amended): draw strictly above 50 W gives
`decision = false` with `measurement = draw`; draw ≤ 50 W gives
`decision = true` with `measurement = draw`; a device absent from a
non-empty report, or a transient timeout, gives the default
`decision = true`, `measurement = 0`. -/
theorem C5_draw_decision (d : String) (devsA devsB devsC : List (String × ℚ))
    (drawA drawB : ℚ)
    (hA : findDevice d devsA = some drawA) (hgt : DEVICE_DRAW_THRESHOLD < drawA)
    (hB : findDevice d devsB = some drawB) (hle : drawB ≤ DEVICE_DRAW_THRESHOLD)
    (hC : findDevice d devsC = none) (hne : devsC ≠ []) :
    decide_device d SenseFetch.timeout = .ok (defaultDeviceDecision d)
    ∧ decide_device d (SenseFetch.report devsA)
        = .ok { defaultDeviceDecision d with measurement := drawA, decision := false }
    ∧ decide_device d (SenseFetch.report devsB)
        = .ok { defaultDeviceDecision d with measurement := drawB, decision := true }
    ∧ decide_device d (SenseFetch.report devsC) = .ok (defaultDeviceDecision d) := by
  have hemp : ¬ devsC.isEmpty := by
    cases devsC with
    | nil => exact absurd rfl hne
    | cons a l => simp
  refine ⟨rfl, ?_, ?_, ?_⟩
  · simp [decide_device, hA, hgt]
  · simp [decide_device, hB, not_lt.mpr hle]
  · simp [decide_device, hC, hemp]

/-- Witness for C5 at concrete reports: the device at 60 W, the device
at 10 W, and a report listing only another device. -/
theorem C5_draw_decision_witness :
    (findDevice "p" [("p", 60)] = some 60 ∧ DEVICE_DRAW_THRESHOLD < (60 : ℚ)
      ∧ findDevice "p" [("p", 10)] = some 10 ∧ (10 : ℚ) ≤ DEVICE_DRAW_THRESHOLD
      ∧ findDevice "p" [("q", 5)] = none ∧ [("q", (5 : ℚ))] ≠ ([] : List (String × ℚ)))
    ∧ (decide_device "p" SenseFetch.timeout = .ok (defaultDeviceDecision "p")
      ∧ decide_device "p" (SenseFetch.report [("p", 60)])
          = .ok { defaultDeviceDecision "p" with measurement := 60, decision := false }
      ∧ decide_device "p" (SenseFetch.report [("p", 10)])
          = .ok { defaultDeviceDecision "p" with measurement := 10, decision := true }
      ∧ decide_device "p" (SenseFetch.report [("q", 5)]) = .ok (defaultDeviceDecision "p")) :=
  ⟨⟨by decide, by decide, by decide, by decide, by decide, by decide⟩,
    C5_draw_decision "p" [("p", 60)] [("p", 10)] [("q", 5)] 60 10
      (by decide) (by decide) (by decide) (by decide) (by decide) (by decide)⟩

/-! ### Claim C4: the carbon threshold comparison -/

lemma mean_example : mean [(100 : ℝ), 100.5] = 100.25 := by
  unfold mean
  norm_num

lemma stdev_example : stdev [(100 : ℝ), 100.5] = Real.sqrt (1 / 8) := by
  unfold stdev
  simp only [mean_example, List.map_cons, List.map_nil, List.sum_cons, List.sum_nil,
    List.length_cons, List.length_nil]
  norm_num

lemma sqrt_eighth_lt : Real.sqrt (1 / 8) < 3 / 4 :=
  (Real.sqrt_lt' (by norm_num : (0 : ℝ) < 3 / 4)).mpr (by norm_num)

lemma quarter_lt_sqrt_eighth : (1 / 4 : ℝ) < Real.sqrt (1 / 8) :=
  (Real.lt_sqrt (by norm_num : (0 : ℝ) ≤ 1 / 4)).mpr (by norm_num)

lemma pyInt_last_example : pyInt (100.5 : ℝ) = 100 := by
  unfold pyInt
  rw [if_pos (by norm_num)]
  rw [Int.floor_eq_iff]
  constructor <;> · push_cast; norm_num

lemma pyInt_threshold_example : pyInt (100.25 + Real.sqrt (1 / 8)) = 100 := by
  have h0 := Real.sqrt_nonneg (1 / 8 : ℝ)
  have h1 := sqrt_eighth_lt
  unfold pyInt
  rw [if_pos (by linarith)]
  rw [Int.floor_eq_iff]
  constructor <;> · push_cast; linarith

/-- Claim C4 counterexample: on the window `[100, 100.5]` the code's
truncated-integer comparison yields `decision = false` (`int(100.5) =
100 ≥ 100 = int(100.25 + √0.125)`), while the full-floating-point
comparison demanded by the claim yields `decision = true`
(`100.5 < 100.25 + √0.125 ≈ 100.60`). -/
theorem C4_counterexample :
    co2OutDecision (co2Decide [(100 : ℝ), 100.5]) = some false
    ∧ (co2DecideSpec [(100 : ℝ), 100.5]).map Decision.decision = some true := by
  have hlast : ([(100 : ℝ), 100.5]).getLast! = 100.5 := rfl
  constructor
  · unfold co2Decide
    rw [if_neg (by norm_num)]
    simp only [hlast, mean_example, stdev_example, pyInt_last_example, pyInt_threshold_example,
      co2OutDecision]
    norm_num
  · unfold co2DecideSpec
    rw [if_neg (by norm_num)]
    have hlt : (100.5 : ℝ) < 100.25 + Real.sqrt (1 / 8) := by
      have := quarter_lt_sqrt_eighth
      linarith
    simp only [hlast, mean_example, stdev_example, Option.map_some]
    show some (decide ((100.5 : ℝ) < 100.25 + Real.sqrt (1 / 8))) = some true
    rw [decide_eq_true hlt]

/-- Claim C4 (corrected, amended): for a window with at least 2 samples
the threshold is `mean + sample stdev` (n−1 denominator) over exactly
the current window at full precision, but both the newest sample and
the threshold are then truncated toward zero to integers and the
verdict is `decision = (int(newest) < int(threshold))` — ties after
truncation count as fail. -/
theorem C4_truncated_comparison (data : List ℝ) (h : 2 ≤ data.length) :
    co2Decide data = CO2Out.decision
      { name := "Carbon Cost"
        criteria := "Carbon cost less than x?? + ??"
        units := "gCO2eq/kWh"
        threshold := pyInt (mean data + stdev data)
        measurement := pyInt data.getLast!
        decision := decide (pyInt data.getLast! < pyInt (mean data + stdev data)) } := by
  have hflip : ∀ a b : ℤ, (!decide (a ≤ b)) = decide (b < a) := by
    intro a b
    by_cases hab : a ≤ b
    · simp [hab, not_lt.mpr hab]
    · simp [hab, not_le.mp hab]
  unfold co2Decide
  rw [if_neg (by omega)]
  dsimp only
  rw [hflip]

/-- Witness for C4's amended theorem at the spec's own literal example
window `[100, 120]`. -/
theorem C4_truncated_comparison_witness :
    2 ≤ ([(100 : ℝ), 120]).length
    ∧ co2Decide [(100 : ℝ), 120] = CO2Out.decision
      { name := "Carbon Cost"
        criteria := "Carbon cost less than x?? + ??"
        units := "gCO2eq/kWh"
        threshold := pyInt (mean [(100 : ℝ), 120] + stdev [(100 : ℝ), 120])
        measurement := pyInt ([(100 : ℝ), 120]).getLast!
        decision := decide (pyInt ([(100 : ℝ), 120]).getLast!
            < pyInt (mean [(100 : ℝ), 120] + stdev [(100 : ℝ), 120])) } :=
  ⟨by norm_num, C4_truncated_comparison [(100 : ℝ), 120] (by norm_num)⟩

end Dehumidifier
